import Mathlib

/-!
Shallow embedding of the `ipfailover` daemon (DevHatRo/ipfailover).

The embedding covers the parts of the program the verification claims are
about:

* the persisted state document and the `FileStateStore` operations
  (`internal/state/state.go`): the file system is abstracted as a
  `FileContent` value (absent / unparseable / a parsed `State`), the
  `loadState` / `saveState` round trip is modelled as total functions on
  that value, and I/O failures other than "file absent" and "file
  unparseable" are outside the model (saves succeed);
* the configuration structures and their `Validate` methods
  (`internal/config/config.go`);
* the failover decision engine `Application.determineTargetIP` and the
  orchestration step `Application.checkAndUpdateIP`
  (`cmd/ipfailover/main.go`); the reachability probe and the per-record
  `UpdateRecord` outcomes are environment inputs, `time.Now()` is an
  explicit `now` parameter, and the provider calls issued by a cycle are
  returned as a list;
* the provider-side lookup / delete logic of the Cloudflare, cPanel and
  Namecheap DNS providers (`internal/dns/cloudflare.go`,
  `internal/dns/cpanel.go`, `internal/dns/namecheap.go`), with the
  provider's record listing given as an explicit zone list and the HTTP
  transport assumed to succeed.

Go `int` values are modelled as `Int` (no counter in the program can
overflow a 64-bit integer in any modelled scenario), `time.Time` as an
abstract integer timestamp, and fallible operations as `Except`.
-/

/-- Go `time.Time`, modelled as an abstract integer timestamp. -/
abbrev Timestamp := Int

/-- The persisted state document (`state.State` in `internal/state/state.go`):
fields `last_applied_ip`, `last_change_time`, `last_check_time`,
`last_check_ip`, `update_count`, `primary_failure_count`.  The zero value of
every field matches Go's zero value. -/
structure State where
  lastAppliedIP : String := ""
  lastChangeTime : Timestamp := 0
  lastCheckTime : Timestamp := 0
  lastCheckIP : String := ""
  updateCount : Int := 0
  primaryFailureCount : Int := 0
deriving DecidableEq

/-- Content of the state file as seen by `FileStateStore`: the file may be
absent, present but unparseable (corrupted), or hold a parsed `State`. -/
inductive FileContent where
  | absent : FileContent
  | corrupt : FileContent
  | good : State → FileContent
deriving DecidableEq

/-- Error outcomes of `FileStateStore.loadState`: `notFound` models the typed
not-found error produced when the file is absent
(`pkgerrors.NewNotFoundError`), `parseFailure` models a JSON unmarshal
failure on a corrupted file. -/
inductive LoadErr where
  | notFound : LoadErr
  | parseFailure : LoadErr
deriving DecidableEq

/-- Model of `FileStateStore.loadState`: absent file yields the typed
not-found error, a corrupted file yields an unmarshal error, otherwise the
parsed state is returned. -/
def FileStateStore.loadState : FileContent → Except LoadErr State
  | .absent => .error .notFound
  | .corrupt => .error .parseFailure
  | .good s => .ok s

/-- Model of `FileStateStore.GetLastAppliedIP`: load the state and return its
`last_applied_ip`; any load error is propagated to the caller. -/
def FileStateStore.GetLastAppliedIP (fc : FileContent) : Except LoadErr String :=
  match FileStateStore.loadState fc with
  | .error e => .error e
  | .ok s => .ok s.lastAppliedIP

/-- Model of `FileStateStore.GetLastChangeTime`. -/
def FileStateStore.GetLastChangeTime (fc : FileContent) : Except LoadErr Timestamp :=
  match FileStateStore.loadState fc with
  | .error e => .error e
  | .ok s => .ok s.lastChangeTime

/-- Model of `FileStateStore.GetLastCheckInfo`. -/
def FileStateStore.GetLastCheckInfo (fc : FileContent) : Except LoadErr (String × Timestamp) :=
  match FileStateStore.loadState fc with
  | .error e => .error e
  | .ok s => .ok (s.lastCheckIP, s.lastCheckTime)

/-- Model of `FileStateStore.GetUpdateCount`. -/
def FileStateStore.GetUpdateCount (fc : FileContent) : Except LoadErr Int :=
  match FileStateStore.loadState fc with
  | .error e => .error e
  | .ok s => .ok s.updateCount

/-- Model of `FileStateStore.GetPrimaryFailureCount`: unlike the other
getters, a not-found load error is converted to the value `0` with no
error; other load errors are propagated. -/
def FileStateStore.GetPrimaryFailureCount (fc : FileContent) : Except LoadErr Int :=
  match FileStateStore.loadState fc with
  | .error .notFound => .ok 0
  | .error e => .error e
  | .ok s => .ok s.primaryFailureCount

/-- Model of `FileStateStore.SetPrimaryFailureCount`: a not-found load error
is healed by starting from the zero state, any other load error is returned
to the caller; otherwise only the `primary_failure_count` field of the
loaded state is replaced before saving. -/
def FileStateStore.SetPrimaryFailureCount (fc : FileContent) (count : Int) :
    Except LoadErr FileContent :=
  match FileStateStore.loadState fc with
  | .error .notFound => .ok (.good { ({} : State) with primaryFailureCount := count })
  | .error e => .error e
  | .ok s => .ok (.good { s with primaryFailureCount := count })

/-- Model of `FileStateStore.ResetPrimaryFailureCount`, defined in the source
as `SetPrimaryFailureCount(ctx, 0)`. -/
def FileStateStore.ResetPrimaryFailureCount (fc : FileContent) : Except LoadErr FileContent :=
  FileStateStore.SetPrimaryFailureCount fc 0

/-- Model of `FileStateStore.SetLastAppliedIP`: any load error (absent or
corrupted file alike) is healed by starting from the zero state; the new
address is stored, `last_change_time` is stamped with the current time and
`update_count` is incremented, then the document is saved. -/
def FileStateStore.SetLastAppliedIP (fc : FileContent) (ip : String) (now : Timestamp) :
    FileContent :=
  let s := match FileStateStore.loadState fc with
    | .ok s => s
    | .error _ => ({} : State)
  .good { s with lastAppliedIP := ip, lastChangeTime := now, updateCount := s.updateCount + 1 }

/-- Model of `FileStateStore.SetLastCheckInfo`: any load error is healed by
starting from the zero state; the check address and time are stored. -/
def FileStateStore.SetLastCheckInfo (fc : FileContent) (ip : String) (t : Timestamp) :
    FileContent :=
  let s := match FileStateStore.loadState fc with
    | .ok s => s
    | .error _ => ({} : State)
  .good { s with lastCheckTime := t, lastCheckIP := ip }

/-- Cloudflare provider configuration (`config.CloudflareConfig`). -/
structure CloudflareConfig where
  apiToken : String := ""
  zoneID : String := ""
  proxied : Bool := false
deriving DecidableEq

/-- cPanel provider configuration (`config.CPanelConfig`). -/
structure CPanelConfig where
  baseURL : String := ""
  username : String := ""
  apiToken : String := ""
  zone : String := ""
deriving DecidableEq

/-- Route53 provider configuration (`config.Route53Config`). -/
structure Route53Config where
  accessKeyID : String := ""
  secretAccessKey : String := ""
  region : String := ""
  hostedZoneID : String := ""
deriving DecidableEq

/-- Namecheap provider configuration (`config.NamecheapConfig`). -/
structure NamecheapConfig where
  apiUser : String := ""
  apiToken : String := ""
  username : String := ""
  clientIP : String := ""
  domain : String := ""
  sandbox : Bool := false
deriving DecidableEq

/-- Per-record DNS configuration (`config.DNSConfig`).  The Go field `Type`
is a Lean keyword and is rendered `rtype`. -/
structure DNSConfig where
  name : String := ""
  rtype : String := ""
  provider : String := ""
  ttl : Int := 0
  cloudflare : Option CloudflareConfig := none
  cpanel : Option CPanelConfig := none
  route53 : Option Route53Config := none
  namecheap : Option NamecheapConfig := none
deriving DecidableEq

/-- Application configuration (`config.Config`).  `pollInterval` is a
`time.Duration` in nanoseconds. -/
structure Config where
  pollInterval : Int := 0
  checkEndpoints : List String := []
  primaryIP : String := ""
  secondaryIP : String := ""
  stateFile : String := ""
  metricsAddr : String := ""
  logLevel : String := ""
  stateFailureStrategy : String := ""
  failoverRetries : Int := 0
  dns : List DNSConfig := []
deriving DecidableEq

/-- Model of `CloudflareConfig.Validate`. -/
def CloudflareConfig.Validate (c : CloudflareConfig) : Except String Unit :=
  if c.apiToken = "" then .error "api_token is required"
  else if c.zoneID = "" then .error "zone_id is required"
  else .ok ()

/-- Model of `CPanelConfig.Validate`. -/
def CPanelConfig.Validate (c : CPanelConfig) : Except String Unit :=
  if c.baseURL = "" then .error "base_url is required"
  else if c.username = "" then .error "username is required"
  else if c.apiToken = "" then .error "api_token is required"
  else if c.zone = "" then .error "zone is required"
  else .ok ()

/-- Model of `Route53Config.Validate`. -/
def Route53Config.Validate (c : Route53Config) : Except String Unit :=
  if c.accessKeyID = "" then .error "access_key_id is required"
  else if c.secretAccessKey = "" then .error "secret_access_key is required"
  else if c.region = "" then .error "region is required"
  else if c.hostedZoneID = "" then .error "hosted_zone_id is required"
  else .ok ()

/-- Model of `NamecheapConfig.Validate`. -/
def NamecheapConfig.Validate (c : NamecheapConfig) : Except String Unit :=
  if c.apiUser = "" then .error "api_user is required"
  else if c.apiToken = "" then .error "api_token is required"
  else if c.username = "" then .error "username is required"
  else if c.clientIP = "" then .error "client_ip is required"
  else if c.domain = "" then .error "domain is required"
  else .ok ()

/-- Model of `DNSConfig.Validate`: field presence checks, positive TTL, then
dispatch to the provider-specific configuration's `Validate`. -/
def DNSConfig.Validate (d : DNSConfig) : Except String Unit :=
  if d.name = "" then .error "name is required"
  else if d.rtype = "" then .error "type is required"
  else if d.provider = "" then .error "provider is required"
  else if d.ttl ≤ 0 then .error "TTL must be positive"
  else match d.provider with
    | "cloudflare" =>
      match d.cloudflare with
      | none => .error "cloudflare configuration is required for cloudflare provider"
      | some c => c.Validate
    | "cpanel" =>
      match d.cpanel with
      | none => .error "cpanel configuration is required for cpanel provider"
      | some c => c.Validate
    | "route53" =>
      match d.route53 with
      | none => .error "route53 configuration is required for route53 provider"
      | some c => c.Validate
    | "namecheap" =>
      match d.namecheap with
      | none => .error "namecheap configuration is required for namecheap provider"
      | some c => c.Validate
    | _ => .error "unsupported provider"

/-- Validation of the configured DNS record list, as the loop at the end of
`Config.Validate`: the first failing record's error is returned. -/
def validateDNSRecords : List DNSConfig → Except String Unit
  | [] => .ok ()
  | d :: rest =>
    match d.Validate with
    | .error e => .error e
    | .ok _ => validateDNSRecords rest

/-- Model of `Config.Validate` (`internal/config/config.go`): the checks are
performed in source order; `failover_retries` is rejected exactly when it is
negative. -/
def Config.Validate (c : Config) : Except String Unit :=
  if c.pollInterval ≤ 0 then .error "poll_interval must be positive"
  else if c.checkEndpoints = [] then .error "at least one check_endpoint must be specified"
  else if c.primaryIP = "" then .error "primary_ip must be specified"
  else if c.secondaryIP = "" then .error "secondary_ip must be specified"
  else if c.failoverRetries < 0 then .error "failover_retries must be non-negative"
  else if ¬(c.stateFailureStrategy = "fail_fast" ∨
            c.stateFailureStrategy = "continue_with_warning" ∨
            c.stateFailureStrategy = "immediate_failover") then
    .error "state_failure_strategy must be one of the allowed values"
  else if c.stateFile = "" then .error "state_file must be specified"
  else if c.dns = [] then .error "at least one DNS record must be configured"
  else validateDNSRecords c.dns

/-- DNS record intent as built by the orchestration loop and passed to a
provider's `UpdateRecord` (`interfaces.DNSRecord`; the `Metadata` map is not
used by any modelled operation and is omitted). -/
structure DNSRecord where
  name : String := ""
  rtype : String := ""
  value : String := ""
  ttl : Int := 0
  provider : String := ""
deriving DecidableEq

/-- Model of `Application.determineTargetIP` (`cmd/ipfailover/main.go`).  The
reachability probe of the primary address is the boolean input
`primaryReachable`; the persisted failure counter lives in the state file
`fc`.  On probe success the counter is reset (a reset failure is only
logged) and the primary address is returned; on probe failure the counter is
read (load errors fall back to 0), incremented and persisted (a persist
failure is only logged), and the secondary address is returned exactly when
the new counter has reached `failover_retries`. -/
def Application.determineTargetIP (cfg : Config) (primaryReachable : Bool)
    (fc : FileContent) : String × FileContent :=
  if primaryReachable then
    match FileStateStore.ResetPrimaryFailureCount fc with
    | .ok fc' => (cfg.primaryIP, fc')
    | .error _ => (cfg.primaryIP, fc)
  else
    let failureCount := match FileStateStore.GetPrimaryFailureCount fc with
      | .ok n => n
      | .error _ => 0
    let failureCount := failureCount + 1
    let fc' := match FileStateStore.SetPrimaryFailureCount fc failureCount with
      | .ok f => f
      | .error _ => fc
    if cfg.failoverRetries ≤ failureCount then (cfg.secondaryIP, fc')
    else (cfg.primaryIP, fc')

/-- Model of `Application.updateDNSRecords`: every configured record is
attempted in order (the provider map is built from the same configuration
list, so the provider lookup always succeeds); `updOk` gives the outcome of
each record's `UpdateRecord` call, keyed by record name.  The first
component lists the `UpdateRecord` calls issued, the second is `true` when
the aggregated `multierr` error is non-nil, i.e. when at least one record
failed. -/
def Application.updateDNSRecords (cfg : Config) (updOk : String → Bool)
    (targetIP : String) : List DNSRecord × Bool :=
  (cfg.dns.map (fun d =>
      { name := d.name, rtype := d.rtype, value := targetIP, ttl := d.ttl,
        provider := d.provider }),
   cfg.dns.any (fun d => !updOk d.name))

/-- Outcome of one orchestration cycle: whether `checkAndUpdateIP` returned
nil, the resulting state file content, and the provider `UpdateRecord` calls
issued during the cycle. -/
structure CycleResult where
  ok : Bool
  fc : FileContent
  calls : List DNSRecord
deriving DecidableEq

/-- Model of `Application.checkAndUpdateIP` for a cycle in which IP detection
succeeded with `currentIP` at time `now`: check info is stored (a failure
there is only logged), the target is determined, and if it differs from the
stored last-applied address all DNS records are updated; the last-applied
address is persisted only when the aggregated update error is nil. -/
def Application.checkAndUpdateIP (cfg : Config) (currentIP : String)
    (primaryReachable : Bool) (updOk : String → Bool) (now : Timestamp)
    (fc : FileContent) : CycleResult :=
  let fc1 := FileStateStore.SetLastCheckInfo fc currentIP now
  let t := Application.determineTargetIP cfg primaryReachable fc1
  let targetIP := t.1
  let fc2 := t.2
  if targetIP = "" then { ok := true, fc := fc2, calls := [] }
  else
    let lastAppliedIP := match FileStateStore.GetLastAppliedIP fc2 with
      | .ok ip => ip
      | .error _ => ""
    if lastAppliedIP = targetIP then { ok := true, fc := fc2, calls := [] }
    else
      let u := Application.updateDNSRecords cfg updOk targetIP
      if u.2 then { ok := false, fc := fc2, calls := u.1 }
      else { ok := true, fc := FileStateStore.SetLastAppliedIP fc2 targetIP now, calls := u.1 }

/-- Decision trace of consecutive cycles of the decision engine: for each
probe outcome in turn, run `determineTargetIP` and record the decision and
the state file content it leaves behind. -/
def Application.decisionTrace (cfg : Config) : FileContent → List Bool → List (String × FileContent)
  | _, [] => []
  | fc, p :: ps =>
    let r := Application.determineTargetIP cfg p fc
    r :: Application.decisionTrace cfg r.2 ps

/-- Typed error carrying provider and record name
(`errors.NewDNSProviderError`). -/
structure DNSProviderError where
  provider : String
  record : String
  msg : String
deriving DecidableEq

/-- Provider-side DNS record as returned by the Cloudflare list API
(`dns.CloudflareDNSRecord` semantics of the SDK result). -/
structure CloudflareDNSRecord where
  id : String := ""
  rtype : String := ""
  name : String := ""
  content : String := ""
  ttl : Int := 0
  proxied : Bool := false
deriving DecidableEq

/-- Records returned by the Cloudflare list call of
`CloudflareProvider.GetRecord` / `DeleteRecord`, which passes the name and
type as server-side filters: exactly the zone records matching both. -/
def CloudflareProvider.listFiltered (zone : List CloudflareDNSRecord)
    (name rtype : String) : List CloudflareDNSRecord :=
  zone.filter (fun r => r.name == name && r.rtype == rtype)

/-- Model of `CloudflareProvider.GetRecord`: an empty record type is rejected
as a caller error before any API call; otherwise the first record matching
(name, type) is returned, or `none` when there is no match. -/
def CloudflareProvider.GetRecord (zone : List CloudflareDNSRecord)
    (name rtype : String) : Except DNSProviderError (Option DNSRecord) :=
  if rtype = "" then
    .error { provider := "cloudflare", record := name, msg := "empty record type" }
  else
    match CloudflareProvider.listFiltered zone name rtype with
    | [] => .ok none
    | r :: _ => .ok (some { name := r.name, rtype := r.rtype, value := r.content,
                            ttl := r.ttl, provider := "cloudflare" })

/-- Model of `CloudflareProvider.DeleteRecord`: an empty record type is
rejected as a caller error; when no (name, type) match exists the call
returns nil without issuing a delete (`.ok none`); otherwise the delete call
is issued for the first match's identifier (`.ok (some id)`). -/
def CloudflareProvider.DeleteRecord (zone : List CloudflareDNSRecord)
    (name recordType : String) : Except DNSProviderError (Option String) :=
  if recordType = "" then
    .error { provider := "cloudflare", record := name, msg := "empty record type" }
  else
    match CloudflareProvider.listFiltered zone name recordType with
    | [] => .ok none
    | r :: _ => .ok (some r.id)

/-- Provider-side DNS record in cPanel (`dns.CPanelDNSRecord`). -/
structure CPanelDNSRecord where
  id : String := ""
  rtype : String := ""
  name : String := ""
  data : String := ""
  ttl : Int := 0
  line : Int := 0
deriving DecidableEq

/-- Model of `CPanelProvider.findRecord`: the first record whose name matches
and whose type matches or whose requested type is empty — an empty type acts
as a wildcard over the name matches. -/
def CPanelProvider.findRecord (zone : List CPanelDNSRecord)
    (name recordType : String) : Option CPanelDNSRecord :=
  zone.find? (fun r => r.name == name && (recordType == "" || r.rtype == recordType))

/-- Model of `CPanelProvider.GetRecord`: exact (name, type) match over the
full listing; no match yields `.ok none`. -/
def CPanelProvider.GetRecord (zone : List CPanelDNSRecord)
    (name rtype : String) : Except DNSProviderError (Option DNSRecord) :=
  match zone.find? (fun r => r.name == name && r.rtype == rtype) with
  | none => .ok none
  | some r => .ok (some { name := r.name, rtype := r.rtype, value := r.data,
                          ttl := r.ttl, provider := "cpanel" })

/-- Model of `CPanelProvider.DeleteRecord`: find-then-delete; a missing
record returns nil without a delete call (`.ok none`), otherwise the delete
call is issued for the found record's line (`.ok (some line)`). -/
def CPanelProvider.DeleteRecord (zone : List CPanelDNSRecord)
    (name recordType : String) : Except DNSProviderError (Option Int) :=
  match CPanelProvider.findRecord zone name recordType with
  | none => .ok none
  | some r => .ok (some r.line)

/-- Provider-side DNS record in Namecheap (`dns.NamecheapDNSRecord`; the TTL
is a string in the XML API). -/
structure NamecheapDNSRecord where
  id : String := ""
  rtype : String := ""
  name : String := ""
  address : String := ""
  mxPref : String := ""
  ttl : String := ""
deriving DecidableEq

/-- Model of `NamecheapProvider.findRecord`: same shape as the cPanel finder,
an empty requested type acts as a wildcard over the name matches. -/
def NamecheapProvider.findRecord (zone : List NamecheapDNSRecord)
    (name recordType : String) : Option NamecheapDNSRecord :=
  zone.find? (fun r => r.name == name && (recordType == "" || r.rtype == recordType))

/-- Model of `NamecheapProvider.GetRecord`: exact (name, type) match; on a
match the string TTL is parsed and a parse failure is an error. -/
def NamecheapProvider.GetRecord (zone : List NamecheapDNSRecord)
    (name rtype : String) : Except DNSProviderError (Option DNSRecord) :=
  match zone.find? (fun r => r.name == name && r.rtype == rtype) with
  | none => .ok none
  | some r =>
    match r.ttl.toInt? with
    | none => .error { provider := "namecheap", record := name, msg := "parsing TTL" }
    | some t => .ok (some { name := r.name, rtype := r.rtype, value := r.address,
                            ttl := t, provider := "namecheap" })

/-- Model of `NamecheapProvider.DeleteRecord`: find-then-delete; a missing
record returns nil without a delete call (`.ok none`), otherwise the delete
call is issued for the found record's identifier (`.ok (some id)`). -/
def NamecheapProvider.DeleteRecord (zone : List NamecheapDNSRecord)
    (name recordType : String) : Except DNSProviderError (Option String) :=
  match NamecheapProvider.findRecord zone name recordType with
  | none => .ok none
  | some r => .ok (some r.id)

/-- Provider-side resource record set in Route53 (`types.ResourceRecordSet`
of the AWS SDK, restricted to the fields the provider reads: name, type,
first resource-record value and TTL; the SDK's nilable pointers are modelled
as plain values, so the nil-name skip branch has no counterpart). -/
structure Route53DNSRecord where
  name : String := ""
  rtype : String := ""
  value : String := ""
  ttl : Int := 0
deriving DecidableEq

/-- Model of `Route53Provider.findRecord`: the first record whose name
matches and whose type matches or whose requested type is empty. -/
def Route53Provider.findRecord (zone : List Route53DNSRecord)
    (name recordType : String) : Option Route53DNSRecord :=
  zone.find? (fun r => r.name == name && (recordType == "" || r.rtype == recordType))

/-- Model of `Route53Provider.GetRecord`: an empty record type is rejected as
a caller error before any API call; otherwise the listing is scanned for the
first exact (name, type) match. -/
def Route53Provider.GetRecord (zone : List Route53DNSRecord)
    (name rtype : String) : Except DNSProviderError (Option DNSRecord) :=
  if rtype = "" then
    .error { provider := "route53", record := name, msg := "empty record type" }
  else
    match zone.find? (fun r => r.name == name && r.rtype == rtype) with
    | none => .ok none
    | some r => .ok (some { name := r.name, rtype := r.rtype, value := r.value,
                            ttl := r.ttl, provider := "route53" })

/-- Model of `Route53Provider.DeleteRecord`: an empty record type is rejected
as a caller error; otherwise find-then-delete, where a missing record
returns nil without a delete call (`.ok none`) and a found record is deleted
(`.ok (some r)`). -/
def Route53Provider.DeleteRecord (zone : List Route53DNSRecord)
    (name recordType : String) : Except DNSProviderError (Option Route53DNSRecord) :=
  if recordType = "" then
    .error { provider := "route53", record := name, msg := "empty record type" }
  else
    match Route53Provider.findRecord zone name recordType with
    | none => .ok none
    | some r => .ok (some r)

/-- An otherwise-valid sample configuration (primary `10.0.0.1`, secondary
`10.0.0.2`, threshold 3) used to instantiate the claims about validation and
the end-to-end scenario. -/
def sampleConfig : Config :=
  { pollInterval := 30000000000
  , checkEndpoints := ["https://ifconfig.io/ip", "https://api.ipify.org"]
  , primaryIP := "10.0.0.1"
  , secondaryIP := "10.0.0.2"
  , stateFile := "/var/lib/ipfailover/state.json"
  , metricsAddr := ":8080"
  , logLevel := "info"
  , stateFailureStrategy := "continue_with_warning"
  , failoverRetries := 3
  , dns := [{ name := "www.example.com", rtype := "A", provider := "cloudflare",
              ttl := 300, cloudflare := some { apiToken := "token", zoneID := "zone" } }] }

/-- Sample configuration with two configured DNS records, for the
partial-failure scenario of the orchestration loop. -/
def twoRecordConfig : Config :=
  { sampleConfig with dns :=
      [{ name := "r1.example.com", rtype := "A", provider := "cloudflare",
         ttl := 300, cloudflare := some { apiToken := "token", zoneID := "zone" } },
       { name := "r2.example.com", rtype := "A", provider := "cloudflare",
         ttl := 300, cloudflare := some { apiToken := "token", zoneID := "zone" } }] }

/-- Shared evaluation lemma: the decision engine on a reachable primary and a
readable state file resets the counter and returns the primary address. -/
theorem determineTargetIP_true_good (cfg : Config) (s : State) :
    Application.determineTargetIP cfg true (.good s) =
      (cfg.primaryIP, .good { s with primaryFailureCount := 0 }) := by
  simp [Application.determineTargetIP, FileStateStore.ResetPrimaryFailureCount,
    FileStateStore.SetPrimaryFailureCount, FileStateStore.loadState]

/-- Shared evaluation lemma: the decision engine on an unreachable primary
and a readable state file increments and persists the counter and picks the
secondary address exactly when the new counter has reached the threshold. -/
theorem determineTargetIP_false_good (cfg : Config) (s : State) :
    Application.determineTargetIP cfg false (.good s) =
      (if cfg.failoverRetries ≤ s.primaryFailureCount + 1 then cfg.secondaryIP
       else cfg.primaryIP,
       .good { s with primaryFailureCount := s.primaryFailureCount + 1 }) := by
  simp only [Application.determineTargetIP, FileStateStore.GetPrimaryFailureCount,
    FileStateStore.SetPrimaryFailureCount, FileStateStore.loadState, Bool.false_eq_true,
    if_false]
  split <;> simp_all

/-- Shared frame lemma: on a readable state file, the decision engine only
ever rewrites the `primary_failure_count` field. -/
theorem determineTargetIP_good_frame (cfg : Config) (p : Bool) (s : State) :
    ∃ n : Int, (Application.determineTargetIP cfg p (.good s)).2 =
      .good { s with primaryFailureCount := n } := by
  cases p
  · exact ⟨s.primaryFailureCount + 1, by rw [determineTargetIP_false_good]⟩
  · exact ⟨0, by rw [determineTargetIP_true_good]⟩

/-- C4: whenever the reachability probe of the primary address succeeds, the
decision engine resets the persisted counter to 0 — no matter how many
consecutive failures are recorded — and returns the primary address on that
same cycle. -/
theorem probe_success_resets_and_returns_primary (cfg : Config) (s : State) :
    Application.determineTargetIP cfg true (.good s) =
      (cfg.primaryIP, .good { s with primaryFailureCount := 0 }) :=
  determineTargetIP_true_good cfg s

/-- C1: for every configured retry threshold R ≥ 0, a failed probe of the
primary increments the persisted failure counter by 1 and persists it, and
the decision is the secondary address exactly when the new counter value has
reached R (so R = 0 flips on a single failure from a fresh counter);
configuration validation accepts every R ≥ 0 and rejects every negative
R. -/
theorem probe_failure_increments_and_thresholds (cfg : Config) (s : State)
    (hR : 0 ≤ cfg.failoverRetries) :
    (Application.determineTargetIP cfg false (.good s) =
      (if cfg.failoverRetries ≤ s.primaryFailureCount + 1 then cfg.secondaryIP
       else cfg.primaryIP,
       .good { s with primaryFailureCount := s.primaryFailureCount + 1 })) ∧
    (cfg.failoverRetries = 0 → 0 ≤ s.primaryFailureCount →
      (Application.determineTargetIP cfg false (.good s)).1 = cfg.secondaryIP) ∧
    (∀ c : Config, c.failoverRetries < 0 → ∃ e, Config.Validate c = .error e) ∧
    (∀ R : Int, 0 ≤ R →
      Config.Validate { sampleConfig with failoverRetries := R } = .ok ()) := by
  refine ⟨determineTargetIP_false_good cfg s, ?_, ?_, ?_⟩
  · intro h0 hpfc
    rw [determineTargetIP_false_good]
    simp only [h0]
    rw [if_pos (by omega)]
  · intro c hc
    unfold Config.Validate
    split_ifs <;> first | exact ⟨_, rfl⟩ | omega
  · intro R hR'
    unfold Config.Validate
    dsimp only [sampleConfig]
    rw [if_neg (by decide), if_neg (by decide), if_neg (by decide), if_neg (by decide),
      if_neg (show ¬(R < 0) by omega), if_neg (by decide), if_neg (by decide),
      if_neg (by decide)]
    rfl

/-- Witness for C1 at the sample configuration (threshold 3) and a fresh
state: the first probe failure yields count 1 and the primary address. -/
theorem probe_failure_increments_and_thresholds_witness :
    0 ≤ sampleConfig.failoverRetries ∧
    Application.determineTargetIP sampleConfig false (.good ({} : State)) =
      ("10.0.0.1", .good { ({} : State) with primaryFailureCount := 1 }) := by
  refine ⟨by decide, ?_⟩
  have h := (probe_failure_increments_and_thresholds sampleConfig ({} : State) (by decide)).1
  rw [h]
  decide

/-- Counterexample to C2 as stated: in the R = 3 scenario with four
consecutive probe failures, the decision on cycle 3 (failure count 3) is
already the secondary address `10.0.0.2`, not the primary. -/
theorem scenario_cycle3_already_secondary :
    ((Application.decisionTrace sampleConfig (.good ({} : State))
        [false, false, false, false, true]).map Prod.fst)[2]? = some "10.0.0.2" ∧
    ("10.0.0.2" : String) ≠ "10.0.0.1" := by decide

/-- C2 (amended): with primary 10.0.0.1, secondary 10.0.0.2 and threshold
R = 3, four consecutive probe failures keep the decision at the primary
address through cycle 2 (persisted counts 1, 2) and flip it to the secondary
on cycle 3 (count 3), keeping it secondary on cycle 4 (count 4); a probe
success on cycle 5 immediately flips the decision back to the primary and
resets the counter to 0. -/
theorem scenario_trace_matches_code :
    Application.decisionTrace sampleConfig (.good ({} : State))
        [false, false, false, false, true] =
      [("10.0.0.1", .good { primaryFailureCount := 1 }),
       ("10.0.0.1", .good { primaryFailureCount := 2 }),
       ("10.0.0.2", .good { primaryFailureCount := 3 }),
       ("10.0.0.2", .good { primaryFailureCount := 4 }),
       ("10.0.0.1", .good { primaryFailureCount := 0 })] := by decide

/-- Shared evaluation lemma: storing check info on a readable state file only
rewrites the two check fields. -/
theorem setLastCheckInfo_good (s : State) (ip : String) (t : Timestamp) :
    FileStateStore.SetLastCheckInfo (.good s) ip t =
      .good { s with lastCheckTime := t, lastCheckIP := ip } := rfl

/-- C5: in a cycle whose decision-engine target equals the stored
last-applied address, the orchestration loop issues no provider calls and
leaves the persisted last-applied address, last-change time and update count
unchanged. -/
theorem cycle_skips_when_target_already_applied (cfg : Config) (currentIP : String)
    (probeOk : Bool) (updOk : String → Bool) (now : Timestamp) (s : State)
    (h : (Application.determineTargetIP cfg probeOk
        (FileStateStore.SetLastCheckInfo (.good s) currentIP now)).1 = s.lastAppliedIP) :
    (Application.checkAndUpdateIP cfg currentIP probeOk updOk now (.good s)).calls = [] ∧
    (Application.checkAndUpdateIP cfg currentIP probeOk updOk now (.good s)).ok = true ∧
    ∃ s', (Application.checkAndUpdateIP cfg currentIP probeOk updOk now (.good s)).fc = .good s' ∧
      s'.lastAppliedIP = s.lastAppliedIP ∧ s'.lastChangeTime = s.lastChangeTime ∧
      s'.updateCount = s.updateCount := by
  obtain ⟨n, hn⟩ := determineTargetIP_good_frame cfg probeOk
    { s with lastCheckTime := now, lastCheckIP := currentIP }
  rw [setLastCheckInfo_good] at h
  unfold Application.checkAndUpdateIP
  rw [setLastCheckInfo_good]
  dsimp only
  by_cases he : (Application.determineTargetIP cfg probeOk
      (.good { s with lastCheckTime := now, lastCheckIP := currentIP })).1 = ""
  · rw [if_pos he]
    refine ⟨rfl, rfl, _, hn, ?_, ?_, ?_⟩ <;> rfl
  · rw [if_neg he, hn]
    have hread : (match FileStateStore.GetLastAppliedIP
        (.good { { s with lastCheckTime := now, lastCheckIP := currentIP } with
          primaryFailureCount := n }) with
      | .ok ip => ip
      | .error _ => "") = s.lastAppliedIP := rfl
    rw [hread, if_pos h.symm]
    refine ⟨rfl, rfl, _, rfl, ?_, ?_, ?_⟩ <;> rfl

/-- Witness for C5: with threshold 3, a reachable primary and the primary
address already applied, the cycle issues no provider calls and succeeds. -/
theorem cycle_skips_when_target_already_applied_witness :
    (Application.determineTargetIP sampleConfig true
        (FileStateStore.SetLastCheckInfo (.good { lastAppliedIP := "10.0.0.1" }) "1.2.3.4" 5)).1 =
      ({ lastAppliedIP := "10.0.0.1" } : State).lastAppliedIP ∧
    (Application.checkAndUpdateIP sampleConfig "1.2.3.4" true (fun _ => true) 5
        (.good { lastAppliedIP := "10.0.0.1" })).calls = [] ∧
    (Application.checkAndUpdateIP sampleConfig "1.2.3.4" true (fun _ => true) 5
        (.good { lastAppliedIP := "10.0.0.1" })).ok = true :=
  ⟨by decide,
   (cycle_skips_when_target_already_applied sampleConfig "1.2.3.4" true (fun _ => true) 5
      { lastAppliedIP := "10.0.0.1" } (by decide)).1,
   (cycle_skips_when_target_already_applied sampleConfig "1.2.3.4" true (fun _ => true) 5
      { lastAppliedIP := "10.0.0.1" } (by decide)).2.1⟩

/-- Shared evaluation lemma: `updateDNSRecords` attempts every configured
record and aggregates failures. -/
theorem updateDNSRecords_eval (cfg : Config) (updOk : String → Bool) (targetIP : String) :
    Application.updateDNSRecords cfg updOk targetIP =
      (cfg.dns.map (fun d =>
          { name := d.name, rtype := d.rtype, value := targetIP, ttl := d.ttl,
            provider := d.provider }),
       cfg.dns.any (fun d => !updOk d.name)) := rfl

/-- C3 (amended): in a cycle whose target differs from the stored
last-applied address, the loop attempts every configured record (the call
list is the full configured list), and the last-applied address is advanced
only when every record reconciled: if any record — all of them or only some
of several — failed, the cycle returns an error and the last-applied address
keeps its previous value, so the next cycle retries the same transition. -/
theorem cycle_advances_only_when_all_records_ok (cfg : Config) (currentIP : String)
    (probeOk : Bool) (updOk : String → Bool) (now : Timestamp) (s : State)
    (h1 : (Application.determineTargetIP cfg probeOk
        (FileStateStore.SetLastCheckInfo (.good s) currentIP now)).1 ≠ "")
    (h2 : s.lastAppliedIP ≠ (Application.determineTargetIP cfg probeOk
        (FileStateStore.SetLastCheckInfo (.good s) currentIP now)).1) :
    (Application.checkAndUpdateIP cfg currentIP probeOk updOk now (.good s)).calls =
      cfg.dns.map (fun d =>
        { name := d.name, rtype := d.rtype,
          value := (Application.determineTargetIP cfg probeOk
            (FileStateStore.SetLastCheckInfo (.good s) currentIP now)).1,
          ttl := d.ttl, provider := d.provider }) ∧
    (cfg.dns.any (fun d => !updOk d.name) = true →
      (Application.checkAndUpdateIP cfg currentIP probeOk updOk now (.good s)).ok = false ∧
      ∃ s', (Application.checkAndUpdateIP cfg currentIP probeOk updOk now (.good s)).fc =
          .good s' ∧ s'.lastAppliedIP = s.lastAppliedIP) ∧
    (cfg.dns.any (fun d => !updOk d.name) = false →
      (Application.checkAndUpdateIP cfg currentIP probeOk updOk now (.good s)).ok = true ∧
      ∃ s', (Application.checkAndUpdateIP cfg currentIP probeOk updOk now (.good s)).fc =
          .good s' ∧
        s'.lastAppliedIP = (Application.determineTargetIP cfg probeOk
          (FileStateStore.SetLastCheckInfo (.good s) currentIP now)).1 ∧
        s'.lastChangeTime = now ∧ s'.updateCount = s.updateCount + 1) := by
  obtain ⟨n, hn⟩ := determineTargetIP_good_frame cfg probeOk
    { s with lastCheckTime := now, lastCheckIP := currentIP }
  rw [setLastCheckInfo_good] at h1 h2 ⊢
  unfold Application.checkAndUpdateIP
  rw [setLastCheckInfo_good]
  dsimp only
  rw [if_neg h1, hn]
  have hread : (match FileStateStore.GetLastAppliedIP
      (.good { { s with lastCheckTime := now, lastCheckIP := currentIP } with
        primaryFailureCount := n }) with
    | .ok ip => ip
    | .error _ => "") = s.lastAppliedIP := rfl
  rw [hread, if_neg h2]
  dsimp only [Application.updateDNSRecords]
  cases hb : cfg.dns.any (fun d => !updOk d.name)
  · rw [if_neg (by simp)]
    refine ⟨rfl, by simp, fun _ => ⟨rfl, _, rfl, ?_, ?_, ?_⟩⟩ <;> rfl
  · rw [if_pos rfl]
    refine ⟨rfl, fun _ => ⟨rfl, _, rfl, ?_⟩, by simp⟩
    rfl

/-- Counterexample to C3 as stated: with two configured records of which
exactly one fails to reconcile, the cycle still does NOT advance the
last-applied address — both records are attempted, the cycle returns an
error and the persisted last-applied address keeps its previous (empty)
value instead of the target `10.0.0.1`. -/
theorem cycle_does_not_advance_on_some_failure :
    Application.checkAndUpdateIP twoRecordConfig "1.2.3.4" true
        (fun n => n == "r1.example.com") 5 (.good ({} : State)) =
      { ok := false,
        fc := .good { lastCheckTime := 5, lastCheckIP := "1.2.3.4" },
        calls := [{ name := "r1.example.com", rtype := "A", value := "10.0.0.1",
                    ttl := 300, provider := "cloudflare" },
                  { name := "r2.example.com", rtype := "A", value := "10.0.0.1",
                    ttl := 300, provider := "cloudflare" }] } ∧
    ("" : String) ≠ "10.0.0.1" := by decide

/-- Witness for C3 at the two-record configuration with one failing record:
both records are attempted and the last-applied address is not advanced. -/
theorem cycle_advances_only_when_all_records_ok_witness :
    (Application.determineTargetIP twoRecordConfig true
        (FileStateStore.SetLastCheckInfo (.good ({} : State)) "1.2.3.4" 5)).1 ≠ "" ∧
    ({} : State).lastAppliedIP ≠ (Application.determineTargetIP twoRecordConfig true
        (FileStateStore.SetLastCheckInfo (.good ({} : State)) "1.2.3.4" 5)).1 ∧
    (Application.checkAndUpdateIP twoRecordConfig "1.2.3.4" true
        (fun n => n == "r1.example.com") 5 (.good ({} : State))).calls =
      twoRecordConfig.dns.map (fun d =>
        { name := d.name, rtype := d.rtype,
          value := (Application.determineTargetIP twoRecordConfig true
            (FileStateStore.SetLastCheckInfo (.good ({} : State)) "1.2.3.4" 5)).1,
          ttl := d.ttl, provider := d.provider }) :=
  ⟨by decide, by decide,
   (cycle_advances_only_when_all_records_ok twoRecordConfig "1.2.3.4" true
      (fun n => n == "r1.example.com") 5 ({} : State) (by decide) (by decide)).1⟩

/-- C7: for the Cloudflare, cPanel and Namecheap providers, deleting a
(name, type) record — with a concrete, nonempty type — that has no
provider-side match returns success without issuing any delete call. -/
theorem delete_missing_record_is_noop_success (name rtype : String)
    (zc : List CloudflareDNSRecord) (zp : List CPanelDNSRecord)
    (zn : List NamecheapDNSRecord)
    (hne : rtype ≠ "")
    (hc : ∀ r ∈ zc, ¬(r.name = name ∧ r.rtype = rtype))
    (hp : ∀ r ∈ zp, ¬(r.name = name ∧ r.rtype = rtype))
    (hn : ∀ r ∈ zn, ¬(r.name = name ∧ r.rtype = rtype)) :
    CloudflareProvider.DeleteRecord zc name rtype = .ok none ∧
    CPanelProvider.DeleteRecord zp name rtype = .ok none ∧
    NamecheapProvider.DeleteRecord zn name rtype = .ok none := by
  refine ⟨?_, ?_, ?_⟩
  · unfold CloudflareProvider.DeleteRecord
    rw [if_neg hne]
    have hfil : CloudflareProvider.listFiltered zc name rtype = [] := by
      unfold CloudflareProvider.listFiltered
      rw [List.filter_eq_nil_iff]
      intro r hr
      have := hc r hr
      simp only [Bool.and_eq_true, beq_iff_eq]
      tauto
    rw [hfil]
  · unfold CPanelProvider.DeleteRecord CPanelProvider.findRecord
    have hfind : zp.find? (fun r =>
        r.name == name && (rtype == "" || r.rtype == rtype)) = none := by
      rw [List.find?_eq_none]
      intro r hr
      have := hp r hr
      simp only [Bool.and_eq_true, Bool.or_eq_true, beq_iff_eq]
      tauto
    rw [hfind]
  · unfold NamecheapProvider.DeleteRecord NamecheapProvider.findRecord
    have hfind : zn.find? (fun r =>
        r.name == name && (rtype == "" || r.rtype == rtype)) = none := by
      rw [List.find?_eq_none]
      intro r hr
      have := hn r hr
      simp only [Bool.and_eq_true, Bool.or_eq_true, beq_iff_eq]
      tauto
    rw [hfind]

/-- Witness for C7: deleting `old.example.com` of type `A` from zones that
hold only a record with a different name is a successful no-op for all three
providers. -/
theorem delete_missing_record_is_noop_success_witness :
    ("A" : String) ≠ "" ∧
    CloudflareProvider.DeleteRecord [{ id := "cf1", rtype := "A", name := "www.example.com" }]
      "old.example.com" "A" = .ok none ∧
    CPanelProvider.DeleteRecord
      [{ id := "cp1", rtype := "A", name := "www.example.com", line := 7 }]
      "old.example.com" "A" = .ok none ∧
    NamecheapProvider.DeleteRecord [{ id := "nc1", rtype := "A", name := "www.example.com" }]
      "old.example.com" "A" = .ok none :=
  ⟨by decide,
   delete_missing_record_is_noop_success "old.example.com" "A"
     [{ id := "cf1", rtype := "A", name := "www.example.com" }]
     [{ id := "cp1", rtype := "A", name := "www.example.com", line := 7 }]
     [{ id := "nc1", rtype := "A", name := "www.example.com" }]
     (by decide) (by decide) (by decide) (by decide)⟩

/-- Counterexample to C6 as stated: the cPanel provider's delete called with
an empty record type does not return a caller error — it succeeds and issues
a delete for a record matched by name alone, although that record's type is
`A`, not empty. -/
theorem empty_type_delete_widens_not_errors :
    CPanelProvider.DeleteRecord
      [{ id := "1", rtype := "A", name := "www.example.com", line := 5 }]
      "www.example.com" "" = .ok (some 5) ∧
    ({ id := "1", rtype := "A", name := "www.example.com", line := 5 } :
      CPanelDNSRecord).rtype ≠ "" :=
  ⟨rfl, by decide⟩

/-- C6 (amended): of the four providers wired in `createDNSProvider`, the
Cloudflare and Route53 providers reject a record lookup or deletion called
with an empty record type as a caller error, but the cPanel and Namecheap
providers do not — their find helper, used by the delete path, treats an
empty requested type as a wildcard, silently widening the search to a match
by name alone. -/
theorem empty_type_rejection_per_provider (name : String) :
    (∀ zone : List CloudflareDNSRecord,
      CloudflareProvider.GetRecord zone name "" =
        .error { provider := "cloudflare", record := name, msg := "empty record type" } ∧
      CloudflareProvider.DeleteRecord zone name "" =
        .error { provider := "cloudflare", record := name, msg := "empty record type" }) ∧
    (∀ zone : List Route53DNSRecord,
      Route53Provider.GetRecord zone name "" =
        .error { provider := "route53", record := name, msg := "empty record type" } ∧
      Route53Provider.DeleteRecord zone name "" =
        .error { provider := "route53", record := name, msg := "empty record type" }) ∧
    (∀ zone : List CPanelDNSRecord,
      CPanelProvider.findRecord zone name "" = zone.find? (fun r => r.name == name)) ∧
    (∀ zone : List NamecheapDNSRecord,
      NamecheapProvider.findRecord zone name "" = zone.find? (fun r => r.name == name)) := by
  refine ⟨fun zone => ⟨?_, ?_⟩, fun zone => ⟨?_, ?_⟩, fun zone => ?_, fun zone => ?_⟩
  · unfold CloudflareProvider.GetRecord
    rw [if_pos rfl]
  · unfold CloudflareProvider.DeleteRecord
    rw [if_pos rfl]
  · unfold Route53Provider.GetRecord
    rw [if_pos rfl]
  · unfold Route53Provider.DeleteRecord
    rw [if_pos rfl]
  · simp [CPanelProvider.findRecord]
  · simp [NamecheapProvider.findRecord]

/-- Counterexample to C8 as stated: on an absent state file,
`GetLastAppliedIP` does not return the zero-valued default without error —
it returns the typed not-found error. -/
theorem absent_file_read_is_error :
    FileStateStore.GetLastAppliedIP .absent = .error .notFound ∧
    FileStateStore.GetLastAppliedIP .absent ≠ .ok "" := by
  refine ⟨rfl, ?_⟩
  simp [FileStateStore.GetLastAppliedIP, FileStateStore.loadState]

/-- C8 (amended): when the state file does not exist, the read operations
`GetLastAppliedIP`, `GetLastChangeTime`, `GetLastCheckInfo` and
`GetUpdateCount` return the typed not-found error (callers that tolerate it
observe the zero-valued default), while `GetPrimaryFailureCount` alone
converts the absence into the value 0 with no error. -/
theorem absent_file_reads_not_found :
    FileStateStore.GetLastAppliedIP .absent = .error .notFound ∧
    FileStateStore.GetLastChangeTime .absent = .error .notFound ∧
    FileStateStore.GetLastCheckInfo .absent = .error .notFound ∧
    FileStateStore.GetUpdateCount .absent = .error .notFound ∧
    FileStateStore.GetPrimaryFailureCount .absent = .ok 0 :=
  ⟨rfl, rfl, rfl, rfl, rfl⟩

/-- C9: setting the primary-failure counter on a readable state file changes
only the `primary_failure_count` field — the last-applied address, both
timestamps, the last-check address and the update count keep their previous
values; in particular the update counter is not bumped and the change
timestamp is not touched. -/
theorem setPrimaryFailureCount_changes_only_counter (s : State) (count : Int) :
    FileStateStore.SetPrimaryFailureCount (.good s) count =
      .ok (.good { lastAppliedIP := s.lastAppliedIP, lastChangeTime := s.lastChangeTime,
                   lastCheckTime := s.lastCheckTime, lastCheckIP := s.lastCheckIP,
                   updateCount := s.updateCount, primaryFailureCount := count }) := rfl

/-- C10: on a state file that exists but cannot be parsed, `SetLastAppliedIP`
still succeeds by rebuilding the document from the zero state: the persisted
result holds the new address, an update count of exactly 1 and a
primary-failure count of 0, with every previously persisted counter and
timestamp discarded. -/
theorem setLastAppliedIP_corrupt_rebuilds (ip : String) (now : Timestamp) :
    FileStateStore.SetLastAppliedIP .corrupt ip now =
      .good { lastAppliedIP := ip, lastChangeTime := now, lastCheckTime := 0,
              lastCheckIP := "", updateCount := 1, primaryFailureCount := 0 } := rfl
